import Mathlib

/-!
Verification development for the smarty scheduling engine.

The definitions below are shallow embeddings of the repository's source:
- src/src/lib/conflict-utils.ts (overlap / location / instructor / travel checks)
- src/unnamed/part_000 = src/lib/scheduling-utils.ts
  (deterministicTieBreaker, calculatePriority, validateWorkloadConstraints,
   timeToMinutes, checkTimeOverlap)
- src/unnamed/part_004 = migration 007 (find_eligible_substitutes)
- src/unnamed/part_006 = migration 004 (is_teacher_available)
- src/supabase/functions/detect-conflicts/index.ts (serve handler)
- src/unnamed/part_003 = detect-absences serve handler

Modelling conventions:
- a "HH:MM" time string is embedded as an hour/minute pair (`HM`);
  `timeToMinutes` is the source's conversion;
- JS numbers carrying scores are embedded as exact rationals (the SQL side
  uses DECIMAL, which is exact); minute counts are integers;
- an optional/undefined string field (location, instructor) is embedded as a
  String where "" stands for absent: the source only ever tests these fields
  for falsiness (undefined and "" are both falsy) and for equality, and the
  equality test is unreachable when either side is falsy, so this quotient
  is faithful;
- JS Array.prototype.sort with a consistent comparator (stable since
  ES2019) is embedded as List.mergeSort with the boolean relation
  "comparator(a,b) <= 0", which is stable and sorts by the same order;
- String.prototype.localeCompare on plain ASCII codes is embedded as the
  lexicographic order on String.
-/

namespace Smarty

/-- Clock time "HH:MM" as an hour/minute pair. -/
structure HM where
  hours : Nat
  minutes : Nat
deriving DecidableEq, Repr

/-- Embeds timeToMinutes from conflict-utils.ts / scheduling-utils.ts:
hours * 60 + minutes. -/
def timeToMinutes (t : HM) : Nat :=
  t.hours * 60 + t.minutes

/-- Embeds the TimeSlot record of conflict-utils.ts.  location and
 instructor are "" when absent. -/
structure TimeSlot where
  id : String
  timetable_id : String
  day_of_week : String
  start_time : HM
  end_time : HM
  title : String
  location : String
  teacher_field : String
deriving DecidableEq, Repr

/-- Embeds checkTimeOverlap from scheduling-utils.ts (part_000):
s1 < e2 and s2 < e1 on minute offsets. -/
def checkTimeOverlap (start1 end1 start2 end2 : HM) : Bool :=
  decide (timeToMinutes start1 < timeToMinutes end2) &&
  decide (timeToMinutes start2 < timeToMinutes end1)

/-- The pairwise day+time condition that quickOverlapCheck,
checkLocationConflicts and checkInstructorConflicts all inline verbatim:
same day_of_week, start1 < end2 and start2 < end1. -/
def overlapCond (a b : TimeSlot) : Bool :=
  a.day_of_week == b.day_of_week &&
  (decide (timeToMinutes a.start_time < timeToMinutes b.end_time) &&
   decide (timeToMinutes b.start_time < timeToMinutes a.end_time))

/-- All ordered pairs (l[i], l[j]) with i < j, in the scan order of the
nested for-loops of conflict-utils.ts. -/
def pairsAfter : List TimeSlot → List (TimeSlot × TimeSlot)
  | [] => []
  | x :: xs => (xs.map fun y => (x, y)) ++ pairsAfter xs

/-- Embeds quickOverlapCheck from conflict-utils.ts: the i<j pair scan
keeping pairs on the same day with overlapping times, in input order. -/
def quickOverlapCheck (slots : List TimeSlot) : List (TimeSlot × TimeSlot) :=
  (pairsAfter slots).filter fun p => overlapCond p.1 p.2

/-- Embeds the filter of checkLocationConflicts from conflict-utils.ts:
both locations truthy, equal, same day, overlapping times. -/
def locationCond (a b : TimeSlot) : Bool :=
  a.location != "" && b.location != "" && a.location == b.location &&
  overlapCond a b

/-- Embeds checkLocationConflicts from conflict-utils.ts. -/
def checkLocationConflicts (slots : List TimeSlot) : List (TimeSlot × TimeSlot) :=
  (pairsAfter slots).filter fun p => locationCond p.1 p.2

/-- Embeds the filter of checkInstructorConflicts from conflict-utils.ts. -/
def instructorCond (a b : TimeSlot) : Bool :=
  a.teacher_field != "" && b.teacher_field != "" &&
  a.teacher_field == b.teacher_field && overlapCond a b

/-- Embeds checkInstructorConflicts from conflict-utils.ts. -/
def checkInstructorConflicts (slots : List TimeSlot) : List (TimeSlot × TimeSlot) :=
  (pairsAfter slots).filter fun p => instructorCond p.1 p.2

/-- Distinct values of a list keeping the first occurrence of each, in
first-occurrence order (the key order of a JS object built by reduce). -/
def distinctFirst : List String → List String
  | [] => []
  | d :: ds => d :: distinctFirst (ds.filter fun x => x ≠ d)
termination_by l => l.length
decreasing_by
  exact Nat.lt_succ_of_le (List.length_filter_le _ _)

/-- Embeds the slotsByDay grouping of checkTravelTimeIssues: slots grouped
by day_of_week, groups in first-occurrence order, each group in input
order. -/
def slotsByDay (slots : List TimeSlot) : List (List TimeSlot) :=
  (distinctFirst (slots.map fun s => s.day_of_week)).map
    fun d => slots.filter fun s => s.day_of_week = d

/-- Comparator of the per-day sort in checkTravelTimeIssues: ascending
start time. -/
def startLE (a b : TimeSlot) : Bool :=
  decide (timeToMinutes a.start_time ≤ timeToMinutes b.start_time)

/-- Adjacent pairs (l[i], l[i+1]) of a list, in order. -/
def adjacentPairs : List TimeSlot → List (TimeSlot × TimeSlot)
  | [] => []
  | [_] => []
  | x :: y :: rest => (x, y) :: adjacentPairs (y :: rest)

/-- The emission condition of checkTravelTimeIssues for an adjacent pair:
both locations truthy, different, and gap = next.start - current.end
strictly below the travel-time threshold. -/
def travelCond (minTravelMinutes : Int) (current next : TimeSlot) : Bool :=
  current.location != "" && next.location != "" &&
  current.location != next.location &&
  decide ((timeToMinutes next.start_time : Int) -
          (timeToMinutes current.end_time : Int) < minTravelMinutes)

/-- Embeds checkTravelTimeIssues from conflict-utils.ts: group by day,
sort each group by start time, scan adjacent pairs only. -/
def checkTravelTimeIssues (slots : List TimeSlot)
    (minTravelMinutes : Int := 15) : List (TimeSlot × TimeSlot) :=
  ((slotsByDay slots).map fun daySlots =>
    (adjacentPairs (daySlots.mergeSort startLE)).filter fun p =>
      travelCond minTravelMinutes p.1 p.2).flatten

/-- Embeds the SubstitutionContext record of scheduling-utils.ts
(part_000). -/
structure SubstitutionContext where
  slot_id : String
  day_of_week : String
  start_time : HM
  end_time : HM
  subject_code : String
  classroom_id : String
  classroom_name : String
  original_teacher_id : String
  duration_minutes : Int
  subject_weight : Int
  progress_percent : Int
deriving DecidableEq, Repr

/-- Embeds calculatePriority from scheduling-utils.ts (part_000):
first-match-wins rule chain over progress_percent and subject_weight. -/
def calculatePriority (context : SubstitutionContext) : String :=
  if context.progress_percent < 50 ∧ context.subject_weight ≥ 4 then
    "critical"
  else if context.progress_percent < 75 ∧ context.subject_weight ≥ 3 then
    "high"
  else if context.progress_percent < 75 then
    "medium"
  else
    "normal"

/-- Result record of validateWorkloadConstraints. -/
structure WorkloadCheck where
  valid : Bool
  reason : Option String
deriving DecidableEq, Repr

/-- Embeds validateWorkloadConstraints from scheduling-utils.ts
(part_000); default maxMinutes 1080. -/
def validateWorkloadConstraints (teacherId : String)
    (currentMinutes additionalMinutes : Int) (maxMinutes : Int := 1080) :
    WorkloadCheck :=
  let totalMinutes := currentMinutes + additionalMinutes
  if totalMinutes > maxMinutes then
    { valid := false
      reason := some s!"Would exceed weekly cap ({totalMinutes}/{maxMinutes} minutes)" }
  else
    { valid := true, reason := none }

/-- Embeds the TeacherCandidate record of scheduling-utils.ts. -/
structure TeacherCandidate where
  teacher_id : String
  teacher_name : String
  employee_code : String
  match_score : ℚ
  available_minutes : Int
  subjects : List String
  reason : String
deriving DecidableEq, Repr

/-- Boolean order of the deterministicTieBreaker comparator:
candLE a b holds when the comparator places a at or before b
(score descending, then available minutes descending, then employee code
ascending). -/
def candLE (a b : TeacherCandidate) : Bool :=
  if a.match_score ≠ b.match_score then
    decide (b.match_score ≤ a.match_score)
  else if a.available_minutes ≠ b.available_minutes then
    decide (b.available_minutes ≤ a.available_minutes)
  else
    decide (a.employee_code ≤ b.employee_code)

/-- Embeds deterministicTieBreaker from scheduling-utils.ts (part_000):
stable sort by the three-level comparator. -/
def deterministicTieBreaker (candidates : List TeacherCandidate) :
    List TeacherCandidate :=
  candidates.mergeSort candLE

/-- Scenario C slot in Building A ending 10:00. -/
def scenarioC_A : TimeSlot :=
  { id := "1", timetable_id := "tt1", day_of_week := "Monday"
    start_time := ⟨9, 0⟩, end_time := ⟨10, 0⟩, title := "Math"
    location := "Building A", teacher_field := "Dr. Smith" }

/-- Scenario C slot in Building B starting 10:05. -/
def scenarioC_B : TimeSlot :=
  { id := "2", timetable_id := "tt1", day_of_week := "Monday"
    start_time := ⟨10, 5⟩, end_time := ⟨11, 5⟩, title := "Physics"
    location := "Building B", teacher_field := "Dr. Jones" }

/-- Scenario A slot: Monday 09:00-10:00, Room101, Dr.Smith, id s1. -/
def slotS1 : TimeSlot :=
  { id := "s1", timetable_id := "tt1", day_of_week := "Monday"
    start_time := ⟨9, 0⟩, end_time := ⟨10, 0⟩, title := "Math"
    location := "Room101", teacher_field := "Dr.Smith" }

/-- Scenario A slot: Monday 09:30-10:30, Room102, Dr.Jones, id s2. -/
def slotS2 : TimeSlot :=
  { id := "s2", timetable_id := "tt1", day_of_week := "Monday"
    start_time := ⟨9, 30⟩, end_time := ⟨10, 30⟩, title := "Physics"
    location := "Room102", teacher_field := "Dr.Jones" }

/-- Example candidate with employee code T1. -/
def candA : TeacherCandidate :=
  { teacher_id := "id-a", teacher_name := "Alice", employee_code := "T1"
    match_score := 0.8, available_minutes := 300, subjects := ["MATH"]
    reason := "Subject match" }

/-- Example candidate with employee code T2, identical score and
available minutes to candA. -/
def candB : TeacherCandidate :=
  { teacher_id := "id-b", teacher_name := "Bob", employee_code := "T2"
    match_score := 0.8, available_minutes := 300, subjects := ["MATH"]
    reason := "Subject match" }

/-- The spec-facing classify(progressPercent, subjectWeight) entry point:
calculatePriority on a context carrying those two fields (the function
reads no other field). -/
def classify (progressPercent subjectWeight : Int) : String :=
  calculatePriority
    { slot_id := "", day_of_week := "", start_time := ⟨0, 0⟩
      end_time := ⟨0, 0⟩, subject_code := "", classroom_id := ""
      classroom_name := "", original_teacher_id := "", duration_minutes := 0
      subject_weight := subjectWeight, progress_percent := progressPercent }

/-- Embeds a row of the teachers table (the columns read by
find_eligible_substitutes in migration 007). -/
structure Teacher where
  id : String
  full_name : String
  employee_code : String
  subjects : List String
  status : String
deriving DecidableEq, Repr

/-- Embeds a row of teacher_availability (migration 004); start_time and
end_time are NULL (none) for whole-day records.  The type column is
 'available', 'unavailable' or a third partial-day marker. -/
structure AvailabilityRecord where
  teacher_id : String
  date : String
  start_time : Option HM
  end_time : Option HM
  availType : String
deriving DecidableEq, Repr

/-- Embeds a row of teacher_workload (migration 005). -/
structure WorkloadRow where
  teacher_id : String
  week_start : String
  assigned_minutes : Int
deriving DecidableEq, Repr

/-- SQL overlap test inside is_teacher_available: a record matches when
it is a whole-day block (both bounds NULL) or when both bounds are set
and the half-open ranges overlap.  A record with exactly one bound set
makes both SQL disjuncts non-true (NULL comparison) and does not match. -/
def availMatches (p_start p_end : HM) (r : AvailabilityRecord) : Bool :=
  match r.start_time, r.end_time with
  | none, none => true
  | some s, some e =>
      decide (timeToMinutes s < timeToMinutes p_end) &&
      decide (timeToMinutes e > timeToMinutes p_start)
  | _, _ => false

/-- Embeds is_teacher_available (migration 004): true when the count of
matching 'unavailable' records for that teacher and date is zero. -/
def is_teacher_available (availability : List AvailabilityRecord)
    (p_teacher_id p_date : String) (p_start p_end : HM) : Bool :=
  decide ((availability.countP fun r =>
    r.teacher_id == p_teacher_id && r.date == p_date &&
    r.availType == "unavailable" && availMatches p_start p_end r) = 0)

/-- Slot columns read by find_eligible_substitutes. -/
structure SlotRecord where
  id : String
  start_time : HM
  end_time : HM
  subject_code : String
deriving DecidableEq, Repr

/-- Slot duration in minutes: EXTRACT(EPOCH FROM (end - start)) / 60. -/
def slotDuration (s : SlotRecord) : Int :=
  (timeToMinutes s.end_time : Int) - (timeToMinutes s.start_time : Int)

/-- The LEFT JOIN row of teacher_workload for a teacher: the unique row
keyed (teacher_id, week_start) when present.  weekStart stands for
get_week_start(p_date). -/
def workloadOf (workloads : List WorkloadRow) (weekStart tid : String) :
    Option WorkloadRow :=
  workloads.find? fun w => w.teacher_id == tid && w.week_start == weekStart

/-- Match score CASE expressions of find_eligible_substitutes.  The load
term reads tw.assigned_minutes without COALESCE: when the LEFT JOIN
produced no row, both WHEN comparisons are NULL in SQL and the ELSE
branch 0.1 applies. -/
def matchScore (maxMinutes : Int) (slot : SlotRecord) (t : Teacher)
    (tw : Option WorkloadRow) (avail : Bool) : ℚ :=
  (if slot.subject_code ∈ t.subjects then (0.5 : ℚ) else 0) +
  (match tw with
   | some w =>
       if (w.assigned_minutes : ℚ) < (maxMinutes : ℚ) * 0.5 then (0.3 : ℚ)
       else if (w.assigned_minutes : ℚ) < (maxMinutes : ℚ) * 0.8 then
         (0.2 : ℚ)
       else (0.1 : ℚ)
   | none => (0.1 : ℚ)) +
  (if avail then (0.2 : ℚ) else 0)

/-- Reason CASE expression of find_eligible_substitutes. -/
def candidateReason (slot : SlotRecord) (t : Teacher) : String :=
  if slot.subject_code ∈ t.subjects then "Subject match"
  else if 3 < t.subjects.length then "Multi-subject teacher"
  else "Available capacity"

/-- A selected row before projection: teacher, its LEFT-JOINed workload
row and its computed score. -/
structure RankedRow where
  t : Teacher
  tw : Option WorkloadRow
  score : ℚ
deriving DecidableEq, Repr

/-- ORDER BY comparator of find_eligible_substitutes:
match_score DESC, tw.assigned_minutes ASC NULLS FIRST, t.id. -/
def rowLE (a b : RankedRow) : Bool :=
  if a.score ≠ b.score then decide (b.score ≤ a.score)
  else if a.tw.map WorkloadRow.assigned_minutes ≠
      b.tw.map WorkloadRow.assigned_minutes then
    match a.tw.map WorkloadRow.assigned_minutes,
        b.tw.map WorkloadRow.assigned_minutes with
    | none, _ => true
    | some _, none => false
    | some x, some y => decide (x ≤ y)
  else decide (a.t.id ≤ b.t.id)

/-- Embeds find_eligible_substitutes (migration 007): filter active,
available, under-cap teachers; compute score, available minutes and
reason; order by score desc / assigned asc nulls first / id; take the
limit. -/
def find_eligible_substitutes (teachers : List Teacher)
    (workloads : List WorkloadRow) (availability : List AvailabilityRecord)
    (slot : SlotRecord) (p_date weekStart : String)
    (maxMinutes : Int := 1080) (p_limit : Nat := 5) :
    List TeacherCandidate :=
  let duration := slotDuration slot
  let filtered := teachers.filter fun t =>
    t.status == "active" &&
    is_teacher_available availability t.id p_date slot.start_time
      slot.end_time &&
    decide (((workloadOf workloads weekStart t.id).map
      WorkloadRow.assigned_minutes).getD 0 + duration ≤ maxMinutes)
  let rows := filtered.map fun t =>
    let tw := workloadOf workloads weekStart t.id
    ({ t := t, tw := tw
       score := matchScore maxMinutes slot t tw
         (is_teacher_available availability t.id p_date slot.start_time
           slot.end_time) } : RankedRow)
  ((rows.mergeSort rowLE).map fun r =>
    ({ teacher_id := r.t.id
       teacher_name := r.t.full_name
       employee_code := r.t.employee_code
       match_score := r.score
       available_minutes :=
         maxMinutes - ((r.tw.map WorkloadRow.assigned_minutes).getD 0)
       subjects := r.t.subjects
       reason := candidateReason slot r.t } : TeacherCandidate)).take
    p_limit

/-- Scenario D teacher: active, with 1000 assigned minutes this week. -/
def scenarioD_teacher : Teacher :=
  { id := "t-d", full_name := "Dana", employee_code := "T9"
    subjects := ["MATH"], status := "active" }

/-- Scenario D workload row: 1000 minutes already assigned. -/
def scenarioD_workload : WorkloadRow :=
  { teacher_id := "t-d", week_start := "2025-02-03"
    assigned_minutes := 1000 }

/-- Scenario D slot: 100 minutes long (09:00 to 10:40). -/
def scenarioD_slot : SlotRecord :=
  { id := "slot-d", start_time := ⟨9, 0⟩, end_time := ⟨10, 40⟩
    subject_code := "MATH" }

/-- Teacher for the C8 counterexample: active, qualified in MATH, with
no workload row. -/
def c8_teacher : Teacher :=
  { id := "t-8", full_name := "Noor", employee_code := "T8"
    subjects := ["MATH"], status := "active" }

/-- Slot for the C8 counterexample. -/
def c8_slot : SlotRecord :=
  { id := "slot-8", start_time := ⟨9, 0⟩, end_time := ⟨10, 0⟩
    subject_code := "MATH" }

/-- The match_score formula as claim C8 words it, reading assignedMinutes
as the coalesced workload value (0 when the teacher has no workload
row) — the comparison point for the code's matchScore. -/
def claimMatchScoreC8 (maxMinutes : Int) (slot : SlotRecord) (t : Teacher)
    (assignedMinutes : Int) (avail : Bool) : ℚ :=
  (if slot.subject_code ∈ t.subjects then (0.5 : ℚ) else 0) +
  (if (assignedMinutes : ℚ) < (maxMinutes : ℚ) * 0.5 then (0.3 : ℚ)
   else if (assignedMinutes : ℚ) < (maxMinutes : ℚ) * 0.8 then (0.2 : ℚ)
   else (0.1 : ℚ)) +
  (if avail then (0.2 : ℚ) else 0)

/-- Embeds the AI conflict records returned by detectConflicts in
src/lib/groq.ts (part_001). -/
structure AIConflict where
  aiType : String
  severity : String
  slot1_id : String
  slot2_id : Option String
  suggestion : String
  reasoning : String
  confidence_score : ℚ
deriving DecidableEq, Repr

/-- A conflict row as assembled by the detect-conflicts handler. -/
structure ConflictRow where
  timetable_id : String
  conflict_type : String
  severity : String
  slot1_id : String
  slot2_id : Option String
  description : String
deriving DecidableEq, Repr

/-- Embeds conflictsToInsert of detect-conflicts/index.ts (lines
132-141): one row per AI conflict, copying the AI-provided type,
severity and reasoning. -/
def conflictsToInsert (timetableId : String)
    (aiConflicts : List AIConflict) : List ConflictRow :=
  aiConflicts.map fun c =>
    { timetable_id := timetableId
      conflict_type := c.aiType
      severity := c.severity
      slot1_id := c.slot1_id
      slot2_id := c.slot2_id
      description := c.reasoning }

/-- Embeds hasLocalConflicts of detect-conflicts/index.ts (lines
121-122). -/
def hasLocalConflicts (timeSlots : List TimeSlot) : Bool :=
  decide (0 < (quickOverlapCheck timeSlots).length) ||
  decide (0 < (checkLocationConflicts timeSlots).length) ||
  decide (0 < (checkInstructorConflicts timeSlots).length) ||
  decide (0 < (checkTravelTimeIssues timeSlots).length)

/-- Embeds the conflict assembly of the detect-conflicts serve handler
(index.ts lines 115-141): the local checks only decide whether the AI
service is called (aiConflicts stands for its response); the conflicts
returned and persisted are built solely from the AI result. -/
def detectHandlerConflicts (timetableId : String)
    (timeSlots : List TimeSlot) (aiConflicts : List AIConflict) :
    List ConflictRow :=
  let aiResult :=
    if hasLocalConflicts timeSlots || decide (5 < timeSlots.length) then
      aiConflicts
    else []
  conflictsToInsert timetableId aiResult

/-- JS coercion slot.subject?.weight || 1 in the detect-absences
handler: missing subject or weight 0 (falsy) become 1. -/
def effSubjectWeight : Option Int → Int
  | none => 1
  | some w => if w = 0 then 1 else w

/-- Slot fields read by the detect-absences handler when it builds a
substitution context. -/
structure AbsenceSlot where
  id : String
  day_of_week : String
  start_time : HM
  end_time : HM
  subject_code : String
  classroom_id : String
  classroom_name : String
  subject_weight : Option Int
deriving DecidableEq, Repr

/-- Embeds the context literal of detect-absences (part_003 lines
126-138): progress_percent is the hard-coded constant 50. -/
def mkAbsenceContext (tid : String) (slot : AbsenceSlot) :
    SubstitutionContext :=
  { slot_id := slot.id
    day_of_week := slot.day_of_week
    start_time := slot.start_time
    end_time := slot.end_time
    subject_code := slot.subject_code
    classroom_id := slot.classroom_id
    classroom_name := slot.classroom_name
    original_teacher_id := tid
    duration_minutes :=
      (timeToMinutes slot.end_time : Int) -
        (timeToMinutes slot.start_time : Int)
    subject_weight := effSubjectWeight slot.subject_weight
    progress_percent := 50 }

/-- Embeds the summary.critical count of the detect-absences response
(part_003 lines 207-211): among the slots that received a suggestion
(hasTop), count those whose computed priority is 'critical'. -/
def absenceCriticalCount (tid : String) (slots : List AbsenceSlot)
    (hasTop : AbsenceSlot → Bool) : Nat :=
  ((slots.filter hasTop).map fun s =>
    calculatePriority (mkAbsenceContext tid s)).count "critical"

/-- Claim C5: calculatePriority evaluates its rules top-to-bottom with
first match winning, using strict comparisons: 'critical' iff
progress < 50 and weight >= 4; otherwise 'high' iff progress < 75 and
weight >= 3; otherwise 'medium' iff progress < 75; otherwise 'normal';
in particular classify 40 3 = high, classify 40 5 = critical,
classify 60 2 = medium, classify 90 5 = normal. -/
theorem C5_calculatePriority_first_match :
    (∀ ctx : SubstitutionContext,
      (calculatePriority ctx = "critical" ↔
        ctx.progress_percent < 50 ∧ 4 ≤ ctx.subject_weight) ∧
      (calculatePriority ctx = "high" ↔
        ¬(ctx.progress_percent < 50 ∧ 4 ≤ ctx.subject_weight) ∧
        (ctx.progress_percent < 75 ∧ 3 ≤ ctx.subject_weight)) ∧
      (calculatePriority ctx = "medium" ↔
        ¬(ctx.progress_percent < 50 ∧ 4 ≤ ctx.subject_weight) ∧
        ¬(ctx.progress_percent < 75 ∧ 3 ≤ ctx.subject_weight) ∧
        ctx.progress_percent < 75) ∧
      (calculatePriority ctx = "normal" ↔ 75 ≤ ctx.progress_percent)) ∧
    classify 40 3 = "high" ∧ classify 40 5 = "critical" ∧
    classify 60 2 = "medium" ∧ classify 90 5 = "normal" := by
  refine ⟨fun ctx => ?_, by decide, by decide, by decide, by decide⟩
  simp only [calculatePriority]
  split_ifs with h1 h2 h3 <;>
    refine ⟨?_, ?_, ?_, ?_⟩ <;> simp_all <;> omega

/-- Claim C9: validateWorkloadConstraints (the wouldExceedCap check,
default cap 1080) reports a violation iff
currentMinutes + additionalMinutes > capMinutes: valid=false together
with a reason exactly when the sum strictly exceeds the cap, valid=true
with no reason otherwise; the boundary sum = cap is valid. -/
theorem C9_validateWorkloadConstraints_cap :
    ∀ (teacherId : String) (currentMinutes additionalMinutes capMinutes : Int),
      ((validateWorkloadConstraints teacherId currentMinutes additionalMinutes
          capMinutes).valid = false ∧
        (validateWorkloadConstraints teacherId currentMinutes additionalMinutes
          capMinutes).reason.isSome ↔
        currentMinutes + additionalMinutes > capMinutes) ∧
      ((validateWorkloadConstraints teacherId currentMinutes additionalMinutes
          capMinutes).valid = true ∧
        (validateWorkloadConstraints teacherId currentMinutes additionalMinutes
          capMinutes).reason = none ↔
        currentMinutes + additionalMinutes ≤ capMinutes) ∧
      ((validateWorkloadConstraints teacherId currentMinutes
          additionalMinutes).valid = false ↔
        currentMinutes + additionalMinutes > 1080) ∧
      (validateWorkloadConstraints teacherId currentMinutes
          (capMinutes - currentMinutes) capMinutes).valid = true := by
  intro teacherId currentMinutes additionalMinutes capMinutes
  simp only [validateWorkloadConstraints]
  refine ⟨?_, ?_, ?_, ?_⟩ <;> split_ifs <;> simp_all <;> omega

/-- Claim C6: the overlap predicate shared by every conflict check holds
iff same day, a.start < b.end and b.start < a.end on minute offsets
(half-open intervals); it is symmetric; it agrees with part_000's
checkTimeOverlap conjoined with the day test; and a slot ending no later
than another starts never overlaps it. -/
theorem C6_overlap_predicate :
    ∀ a b : TimeSlot,
      (overlapCond a b = true ↔
        a.day_of_week = b.day_of_week ∧
        timeToMinutes a.start_time < timeToMinutes b.end_time ∧
        timeToMinutes b.start_time < timeToMinutes a.end_time) ∧
      overlapCond a b = overlapCond b a ∧
      overlapCond a b =
        ((a.day_of_week == b.day_of_week) &&
          checkTimeOverlap a.start_time a.end_time b.start_time b.end_time) ∧
      (timeToMinutes a.end_time ≤ timeToMinutes b.start_time →
        overlapCond a b = false) := by
  intro a b
  refine ⟨?_, ?_, ?_, ?_⟩
  · simp [overlapCond]
  · by_cases hd : a.day_of_week = b.day_of_week
    · simp only [overlapCond, hd, beq_self_eq_true, Bool.true_and]
      rw [Bool.and_comm]
    · have hd' : ¬b.day_of_week = a.day_of_week := fun h => hd h.symm
      have h1 : (a.day_of_week == b.day_of_week) = false :=
        beq_eq_false_iff_ne.mpr hd
      have h2 : (b.day_of_week == a.day_of_week) = false :=
        beq_eq_false_iff_ne.mpr hd'
      simp [overlapCond, h1, h2]
  · simp [overlapCond, checkTimeOverlap]
  · intro h
    simp only [overlapCond]
    have : ¬timeToMinutes b.start_time < timeToMinutes a.end_time := by omega
    simp [this]

/-- Witness for C6 at the boundary of the claim: a Monday slot ending
10:00 and a Monday slot starting 10:00 never overlap. -/
theorem C6_overlap_predicate_witness :
    (Smarty.overlapCond
      { id := "a", timetable_id := "t", day_of_week := "Monday"
        start_time := ⟨9, 0⟩, end_time := ⟨10, 0⟩, title := "A"
        location := "", teacher_field := "" }
      { id := "b", timetable_id := "t", day_of_week := "Monday"
        start_time := ⟨10, 0⟩, end_time := ⟨11, 0⟩, title := "B"
        location := "", teacher_field := "" } = false) ∧
    (Smarty.overlapCond
      { id := "b", timetable_id := "t", day_of_week := "Monday"
        start_time := ⟨10, 0⟩, end_time := ⟨11, 0⟩, title := "B"
        location := "", teacher_field := "" }
      { id := "a", timetable_id := "t", day_of_week := "Monday"
        start_time := ⟨9, 0⟩, end_time := ⟨10, 0⟩, title := "A"
        location := "", teacher_field := "" } = false) := by
  constructor
  · exact (C6_overlap_predicate _ _).2.2.2 (by decide)
  · rw [← (C6_overlap_predicate _ _).2.1]
    exact (C6_overlap_predicate _ _).2.2.2 (by decide)

/-- Membership in adjacentPairs is exactly being two consecutive entries
of the list. -/
theorem adjacentPairs_mem :
    ∀ (l : List TimeSlot) (a b : TimeSlot),
      (a, b) ∈ adjacentPairs l ↔ ∃ i, l[i]? = some a ∧ l[i + 1]? = some b
  | [], a, b => by simp [adjacentPairs]
  | [x], a, b => by
    simp only [adjacentPairs, List.not_mem_nil, false_iff, not_exists]
    intro i
    rintro ⟨h1, h2⟩
    rcases i with _ | j <;> simp_all
  | x :: y :: rest, a, b => by
    simp only [adjacentPairs, List.mem_cons,
      adjacentPairs_mem (y :: rest) a b]
    constructor
    · rintro (h | ⟨i, h1, h2⟩)
      · rcases Prod.mk.injEq .. ▸ h with ⟨rfl, rfl⟩
        exact ⟨0, by simp⟩
      · exact ⟨i + 1, by simpa using h1, by simpa using h2⟩
    · rintro ⟨i, h1, h2⟩
      rcases i with _ | j
      · left
        simp only [List.getElem?_cons_zero, List.getElem?_cons_succ,
          Option.some.injEq] at h1 h2
        simp [← h1, ← h2]
      · right
        exact ⟨j, by simpa using h1, by simpa using h2⟩

/-- Claim C7: checkTravelTimeIssues examines, within each day's slots
sorted by start time, only adjacent pairs, and emits a conflict for an
adjacent pair exactly when both locations are non-empty, the locations
differ, and next.start - current.end < minTravelMinutes; Scenario C
(Building A ending 10:00 then Building B starting 10:05, threshold 15)
yields exactly one conflict. -/
theorem C7_checkTravelTimeIssues_adjacent :
    (∀ (slots : List TimeSlot) (minT : Int) (c n : TimeSlot),
      (c, n) ∈ checkTravelTimeIssues slots minT ↔
        ∃ g ∈ slotsByDay slots, ∃ i : Nat,
          (g.mergeSort startLE)[i]? = some c ∧
          (g.mergeSort startLE)[i + 1]? = some n ∧
          c.location ≠ "" ∧ n.location ≠ "" ∧ c.location ≠ n.location ∧
          (timeToMinutes n.start_time : Int) -
            (timeToMinutes c.end_time : Int) < minT) ∧
    checkTravelTimeIssues [scenarioC_A, scenarioC_B] =
      [(scenarioC_A, scenarioC_B)] := by
  constructor
  · intro slots minT c n
    simp only [checkTravelTimeIssues, List.mem_flatten, List.mem_map]
    constructor
    · rintro ⟨dl, ⟨g, hg, rfl⟩, hmem⟩
      rw [List.mem_filter] at hmem
      obtain ⟨hadj, hc⟩ := hmem
      rcases (adjacentPairs_mem _ c n).mp hadj with ⟨i, h1, h2⟩
      simp only [travelCond, Bool.and_eq_true, decide_eq_true_eq,
        bne_iff_ne, ne_eq] at hc
      exact ⟨g, hg, i, h1, h2, hc.1.1.1, hc.1.1.2, hc.1.2, hc.2⟩
    · rintro ⟨g, hg, i, h1, h2, hc1, hc2, hc3, hc4⟩
      refine ⟨_, ⟨g, hg, rfl⟩, ?_⟩
      rw [List.mem_filter]
      refine ⟨(adjacentPairs_mem _ c n).mpr ⟨i, h1, h2⟩, ?_⟩
      simp only [travelCond, Bool.and_eq_true, decide_eq_true_eq,
        bne_iff_ne, ne_eq]
      exact ⟨⟨⟨hc1, hc2⟩, hc3⟩, hc4⟩
  · simp [checkTravelTimeIssues, slotsByDay, distinctFirst, adjacentPairs,
      travelCond, startLE, List.mergeSort, timeToMinutes, scenarioC_A,
      scenarioC_B]

/-- Unfolding of candLE when the scores differ. -/
theorem candLE_of_score_ne {a b : TeacherCandidate}
    (h : a.match_score ≠ b.match_score) :
    candLE a b = decide (b.match_score ≤ a.match_score) := by
  simp [candLE, h]

/-- Unfolding of candLE when the scores agree and minutes differ. -/
theorem candLE_of_min_ne {a b : TeacherCandidate}
    (hs : a.match_score = b.match_score)
    (h : a.available_minutes ≠ b.available_minutes) :
    candLE a b = decide (b.available_minutes ≤ a.available_minutes) := by
  simp only [candLE, hs]
  rw [if_neg (by simp), if_pos h]

/-- Unfolding of candLE when scores and minutes agree. -/
theorem candLE_of_eqs {a b : TeacherCandidate}
    (hs : a.match_score = b.match_score)
    (hm : a.available_minutes = b.available_minutes) :
    candLE a b = decide (a.employee_code ≤ b.employee_code) := by
  simp only [candLE, hs, hm]
  rw [if_neg (by simp), if_neg (by simp)]

/-- The tie-breaker comparator order is total. -/
theorem candLE_total (a b : TeacherCandidate) :
    (candLE a b || candLE b a) = true := by
  by_cases h1 : a.match_score = b.match_score
  · by_cases h2 : a.available_minutes = b.available_minutes
    · rw [candLE_of_eqs h1 h2, candLE_of_eqs h1.symm h2.symm]
      simp [le_total]
    · rw [candLE_of_min_ne h1 h2,
        candLE_of_min_ne h1.symm (fun h => h2 h.symm)]
      simp [le_total]
  · rw [candLE_of_score_ne h1, candLE_of_score_ne (fun h => h1 h.symm)]
    simp [le_total]

/-- The tie-breaker comparator order is transitive. -/
theorem candLE_trans (a b c : TeacherCandidate) :
    candLE a b = true → candLE b c = true → candLE a c = true := by
  intro hab hbc
  by_cases h1 : a.match_score = b.match_score
  · by_cases h2 : b.match_score = c.match_score
    · have hac : a.match_score = c.match_score := h1.trans h2
      by_cases m1 : a.available_minutes = b.available_minutes
      · by_cases m2 : b.available_minutes = c.available_minutes
        · rw [candLE_of_eqs h1 m1] at hab
          rw [candLE_of_eqs h2 m2] at hbc
          rw [candLE_of_eqs hac (m1.trans m2), decide_eq_true_eq]
          exact le_trans (of_decide_eq_true hab) (of_decide_eq_true hbc)
        · rw [candLE_of_min_ne h2 m2, decide_eq_true_eq] at hbc
          have mac : a.available_minutes ≠ c.available_minutes :=
            m1 ▸ m2
          rw [candLE_of_min_ne hac mac, decide_eq_true_eq]
          omega
      · rw [candLE_of_min_ne h1 m1, decide_eq_true_eq] at hab
        by_cases m2 : b.available_minutes = c.available_minutes
        · have mac : a.available_minutes ≠ c.available_minutes :=
            fun h => m1 (h.trans m2.symm)
          rw [candLE_of_min_ne hac mac, decide_eq_true_eq]
          omega
        · rw [candLE_of_min_ne h2 m2, decide_eq_true_eq] at hbc
          have hlt1 : b.available_minutes < a.available_minutes :=
            lt_of_le_of_ne hab (fun h => m1 h.symm)
          have hlt2 : c.available_minutes < b.available_minutes :=
            lt_of_le_of_ne hbc (fun h => m2 h.symm)
          have mac : a.available_minutes ≠ c.available_minutes := by omega
          rw [candLE_of_min_ne hac mac, decide_eq_true_eq]
          omega
    · rw [candLE_of_score_ne h2, decide_eq_true_eq] at hbc
      have hlt : c.match_score < b.match_score :=
        lt_of_le_of_ne hbc (fun h => h2 h.symm)
      have hac : a.match_score ≠ c.match_score := fun h =>
        absurd (h1.symm.trans h) (ne_of_gt hlt)
      rw [candLE_of_score_ne hac, decide_eq_true_eq, h1]
      exact le_of_lt hlt
  · rw [candLE_of_score_ne h1, decide_eq_true_eq] at hab
    have hlt1 : b.match_score < a.match_score :=
      lt_of_le_of_ne hab (fun h => h1 h.symm)
    by_cases h2 : b.match_score = c.match_score
    · have hac : a.match_score ≠ c.match_score := fun h =>
        h1 (h.trans h2.symm)
      rw [candLE_of_score_ne hac, decide_eq_true_eq, ← h2]
      exact le_of_lt hlt1
    · rw [candLE_of_score_ne h2, decide_eq_true_eq] at hbc
      have hlt2 : c.match_score < b.match_score :=
        lt_of_le_of_ne hbc (fun h => h2 h.symm)
      have hac : a.match_score ≠ c.match_score :=
        fun h => absurd h (ne_of_gt (lt_trans hlt2 hlt1))
      rw [candLE_of_score_ne hac, decide_eq_true_eq]
      exact le_of_lt (lt_trans hlt2 hlt1)

/-- Two lists that are permutations of each other, both sorted by a
relation that is antisymmetric on their elements, are equal. -/
theorem eq_of_perm_of_pairwise {α : Type} {r : α → α → Prop} :
    ∀ {l₁ l₂ : List α}, l₁.Perm l₂ → l₁.Pairwise r → l₂.Pairwise r →
      (∀ a ∈ l₁, ∀ b ∈ l₁, r a b → r b a → a = b) → l₁ = l₂
  | [], l₂, hp, _, _, _ => (hp.symm.eq_nil).symm
  | x :: t₁, [], hp, _, _, _ => absurd hp.eq_nil (by simp)
  | x :: t₁, y :: t₂, hp, hs₁, hs₂, hanti => by
    by_cases hxy : x = y
    · subst hxy
      have htail : t₁.Perm t₂ := hp.cons_inv
      have := eq_of_perm_of_pairwise htail hs₁.tail hs₂.tail
        (fun a ha b hb hab hba =>
          hanti a (List.mem_cons_of_mem _ ha) b (List.mem_cons_of_mem _ hb)
            hab hba)
      rw [this]
    · exfalso
      have hx2 : x ∈ y :: t₂ := hp.mem_iff.mp (List.mem_cons_self _ _)
      have hxt₂ : x ∈ t₂ := by
        rcases List.mem_cons.mp hx2 with h | h
        · exact absurd h hxy
        · exact h
      have hy1 : y ∈ x :: t₁ := hp.mem_iff.mpr (List.mem_cons_self _ _)
      have hyt₁ : y ∈ t₁ := by
        rcases List.mem_cons.mp hy1 with h | h
        · exact absurd h.symm hxy
        · exact h
      have hrxy : r x y := (List.pairwise_cons.mp hs₁).1 y hyt₁
      have hryx : r y x := (List.pairwise_cons.mp hs₂).1 x hxt₂
      exact hxy (hanti x (List.mem_cons_self _ _) y hy1 hrxy hryx)

/-- When the comparator ties two candidates both ways, their employee
codes agree. -/
theorem candLE_antisymm_code (a b : TeacherCandidate) :
    candLE a b = true → candLE b a = true →
    a.employee_code = b.employee_code := by
  intro hab hba
  by_cases h1 : a.match_score = b.match_score
  · by_cases m1 : a.available_minutes = b.available_minutes
    · rw [candLE_of_eqs h1 m1, decide_eq_true_eq] at hab
      rw [candLE_of_eqs h1.symm m1.symm, decide_eq_true_eq] at hba
      exact le_antisymm hab hba
    · rw [candLE_of_min_ne h1 m1, decide_eq_true_eq] at hab
      rw [candLE_of_min_ne h1.symm (fun h => m1 h.symm),
        decide_eq_true_eq] at hba
      exact absurd (le_antisymm hba hab) m1
  · rw [candLE_of_score_ne h1, decide_eq_true_eq] at hab
    rw [candLE_of_score_ne (fun h => h1 h.symm), decide_eq_true_eq] at hba
    exact absurd (le_antisymm hba hab) h1

/-- Ordered pairs of pairsAfter are exactly the index pairs i < j of the
input. -/
theorem pairsAfter_mem :
    ∀ (l : List TimeSlot) (a b : TimeSlot),
      (a, b) ∈ pairsAfter l ↔
        ∃ i j : Nat, i < j ∧ l[i]? = some a ∧ l[j]? = some b
  | [], a, b => by simp [pairsAfter]
  | x :: xs, a, b => by
    simp only [pairsAfter, List.mem_append, List.mem_map,
      pairsAfter_mem xs a b]
    constructor
    · rintro (⟨y, hy, heq⟩ | ⟨i, j, hij, h1, h2⟩)
      · rcases Prod.mk.injEq .. ▸ heq with ⟨rfl, rfl⟩
        rcases List.mem_iff_getElem?.mp hy with ⟨k, hk⟩
        exact ⟨0, k + 1, Nat.succ_pos k, by simp, by simpa using hk⟩
      · exact ⟨i + 1, j + 1, by omega, by simpa using h1, by simpa using h2⟩
    · rintro ⟨i, j, hij, h1, h2⟩
      rcases i with _ | i'
      · left
        rcases j with _ | j'
        · omega
        · simp only [List.getElem?_cons_zero, Option.some.injEq] at h1
          refine ⟨b, ?_, by rw [h1]⟩
          exact List.mem_iff_getElem?.mpr ⟨j', by simpa using h2⟩
      · right
        rcases j with _ | j'
        · omega
        · exact ⟨i', j', by omega, by simpa using h1, by simpa using h2⟩

/-- Claim C4: deterministicTieBreaker orders candidates by the strict
total order: higher match score first; among equal scores more available
minutes first; among equal scores and minutes the lexicographically
smaller employee code first; the output is a permutation of the input
sorted by that order. -/
theorem C4_deterministicTieBreaker_order :
    ∀ l : List TeacherCandidate,
      (deterministicTieBreaker l).Perm l ∧
      (deterministicTieBreaker l).Pairwise (fun a b => candLE a b = true) ∧
      (∀ a b : TeacherCandidate, a.match_score ≠ b.match_score →
        (candLE a b = true ↔ b.match_score ≤ a.match_score)) ∧
      (∀ a b : TeacherCandidate, a.match_score = b.match_score →
        a.available_minutes ≠ b.available_minutes →
        (candLE a b = true ↔ b.available_minutes ≤ a.available_minutes)) ∧
      (∀ a b : TeacherCandidate, a.match_score = b.match_score →
        a.available_minutes = b.available_minutes →
        (candLE a b = true ↔ a.employee_code ≤ b.employee_code)) := by
  intro l
  refine ⟨List.mergeSort_perm l candLE, ?_, ?_, ?_, ?_⟩
  · exact List.sorted_mergeSort candLE_trans candLE_total l
  · intro a b h
    rw [candLE_of_score_ne h, decide_eq_true_eq]
  · intro a b hs h
    rw [candLE_of_min_ne hs h, decide_eq_true_eq]
  · intro a b hs hm
    rw [candLE_of_eqs hs hm, decide_eq_true_eq]

/-- Witness for C4: candA and candB have equal score and equal available
minutes, and the comparator resolves to the employee-code comparison. -/
theorem C4_deterministicTieBreaker_order_witness :
    candLE candA candB = true ↔
      candA.employee_code ≤ candB.employee_code :=
  (C4_deterministicTieBreaker_order []).2.2.2.2 candA candB rfl rfl

/-- Counterexample for C2: quickOverlapCheck is not invariant under
permutation of its input, and the overlapping pair it emits for the
reversed input puts the lexicographically larger slot id first. -/
theorem C2_counterexample :
    List.Perm [slotS2, slotS1] [slotS1, slotS2] ∧
    quickOverlapCheck [slotS2, slotS1] ≠ quickOverlapCheck [slotS1, slotS2] ∧
    quickOverlapCheck [slotS2, slotS1] = [(slotS2, slotS1)] ∧
    slotS1.id.data < slotS2.id.data := by
  refine ⟨List.Perm.swap slotS1 slotS2 [], by decide, by decide, by decide⟩

/-- Amended claim C2: deterministicTieBreaker (rank) is permutation
invariant whenever employee codes identify candidates, while
quickOverlapCheck (detect) emits each overlapping same-day pair exactly
once in input-index order (slots[i], slots[j]) with i < j — so its output
follows the input order, not the lexicographic order of slot ids. -/
theorem C2_rank_perm_invariant_detect_input_order :
    (∀ l₁ l₂ : List TeacherCandidate, l₁.Perm l₂ →
      (∀ a ∈ l₁, ∀ b ∈ l₁, a.employee_code = b.employee_code → a = b) →
      deterministicTieBreaker l₁ = deterministicTieBreaker l₂) ∧
    (∀ (slots : List TimeSlot) (a b : TimeSlot),
      (a, b) ∈ quickOverlapCheck slots ↔
        ∃ i j : Nat, i < j ∧ slots[i]? = some a ∧ slots[j]? = some b ∧
          overlapCond a b = true) := by
  constructor
  · intro l₁ l₂ hperm hinj
    apply eq_of_perm_of_pairwise (r := fun a b => candLE a b = true)
    · exact (List.mergeSort_perm l₁ candLE).trans
        (hperm.trans (List.mergeSort_perm l₂ candLE).symm)
    · exact List.sorted_mergeSort candLE_trans candLE_total l₁
    · exact List.sorted_mergeSort candLE_trans candLE_total l₂
    · intro a ha b hb hab hba
      have ha' : a ∈ l₁ := (List.mergeSort_perm l₁ candLE).subset ha
      have hb' : b ∈ l₁ := (List.mergeSort_perm l₁ candLE).subset hb
      exact hinj a ha' b hb' (candLE_antisymm_code a b hab hba)
  · intro slots a b
    simp only [quickOverlapCheck]
    constructor
    · intro h
      rw [List.mem_filter] at h
      rcases (pairsAfter_mem slots a b).mp h.1 with ⟨i, j, hij, h1, h2⟩
      exact ⟨i, j, hij, h1, h2, h.2⟩
    · rintro ⟨i, j, hij, h1, h2, hcond⟩
      rw [List.mem_filter]
      exact ⟨(pairsAfter_mem slots a b).mpr ⟨i, j, hij, h1, h2⟩, hcond⟩

/-- Witness for the amended C2: the two orderings of the candidate pair
produce the same ranked list. -/
theorem C2_rank_perm_invariant_witness :
    deterministicTieBreaker [candA, candB] =
      deterministicTieBreaker [candB, candA] :=
  C2_rank_perm_invariant_detect_input_order.1 [candA, candB] [candB, candA]
    (List.Perm.swap candB candA [])
    (by
      intro a ha b hb hcode
      fin_cases ha <;> fin_cases hb <;>
        first
          | rfl
          | exact absurd hcode (by decide))

/-- Characterization of the SQL matching condition of
is_teacher_available over an availability record. -/
theorem availMatches_iff (s e : HM) (r : AvailabilityRecord) :
    availMatches s e r = true ↔
      ((r.start_time = none ∧ r.end_time = none) ∨
        (∃ rs re, r.start_time = some rs ∧ r.end_time = some re ∧
          timeToMinutes rs < timeToMinutes e ∧
          timeToMinutes s < timeToMinutes re)) := by
  rcases hv : r.start_time with _ | rs <;>
    rcases hw : r.end_time with _ | re <;>
    simp [availMatches, hv, hw]

/-- The candidate row that find_eligible_substitutes produces for the C8
input: subject match 0.5, no workload row so load term 0.1, availability
bonus 0.2. -/
def c8_candidate : TeacherCandidate :=
  { teacher_id := "t-8", teacher_name := "Noor", employee_code := "T8"
    match_score := 0.8, available_minutes := 1080, subjects := ["MATH"]
    reason := "Subject match" }

/-- Concrete evaluation: the C8 input yields exactly the c8_candidate. -/
theorem c8_output_eq :
    find_eligible_substitutes [c8_teacher] [] [] c8_slot "2025-02-05"
      "2025-02-03" = [c8_candidate] := by
  simp only [find_eligible_substitutes, c8_teacher, c8_slot, workloadOf,
    is_teacher_available, slotDuration, timeToMinutes, List.filter,
    List.find?, List.countP, List.countP.go, List.map]
  norm_num [List.mergeSort, matchScore, candidateReason, c8_candidate]

/-- Claim C3: every candidate returned by find_eligible_substitutes
comes from an active teacher, available on that date for the slot's time
range (no matching 'unavailable' record, whole-day blocks included), and
satisfies assignedMinutes + slotDuration <= max_weekly_minutes; the
availability test is characterized against the records; and the Scenario
D teacher (assigned 1000, cap 1080, slot of 100 minutes) is excluded. -/
theorem C3_find_eligible_substitutes_filter :
    (∀ (teachers : List Teacher) (workloads : List WorkloadRow)
        (availability : List AvailabilityRecord) (slot : SlotRecord)
        (p_date weekStart : String) (maxMinutes : Int) (p_limit : Nat)
        (c : TeacherCandidate),
      c ∈ find_eligible_substitutes teachers workloads availability slot
          p_date weekStart maxMinutes p_limit →
      ∃ t ∈ teachers,
        c.teacher_id = t.id ∧ t.status = "active" ∧
        is_teacher_available availability t.id p_date slot.start_time
          slot.end_time = true ∧
        ((workloadOf workloads weekStart t.id).map
          WorkloadRow.assigned_minutes).getD 0 + slotDuration slot ≤
          maxMinutes ∧
        c.available_minutes =
          maxMinutes - ((workloadOf workloads weekStart t.id).map
            WorkloadRow.assigned_minutes).getD 0) ∧
    (∀ (availability : List AvailabilityRecord) (tid d : String)
        (s e : HM),
      is_teacher_available availability tid d s e = true ↔
        ∀ r ∈ availability, r.teacher_id = tid → r.date = d →
          r.availType = "unavailable" →
          ¬((r.start_time = none ∧ r.end_time = none) ∨
            (∃ rs re, r.start_time = some rs ∧ r.end_time = some re ∧
              timeToMinutes rs < timeToMinutes e ∧
              timeToMinutes s < timeToMinutes re))) ∧
    find_eligible_substitutes [scenarioD_teacher] [scenarioD_workload] []
      scenarioD_slot "2025-02-05" "2025-02-03" = [] := by
  refine ⟨?_, ?_, ?_⟩
  · intro teachers workloads availability slot p_date weekStart maxMinutes
      p_limit c hc
    simp only [find_eligible_substitutes] at hc
    have hc' := List.take_subset _ _ hc
    rcases List.mem_map.mp hc' with ⟨r, hr, rfl⟩
    rw [List.mem_mergeSort] at hr
    rcases List.mem_map.mp hr with ⟨t, ht, rfl⟩
    rw [List.mem_filter] at ht
    obtain ⟨htmem, hcond⟩ := ht
    simp only [Bool.and_eq_true, beq_iff_eq, decide_eq_true_eq] at hcond
    exact ⟨t, htmem, rfl, hcond.1.1, hcond.1.2, hcond.2, rfl⟩
  · intro availability tid d s e
    simp only [is_teacher_available, decide_eq_true_eq,
      List.countP_eq_zero]
    constructor
    · intro h r hr h1 h2 h3 hcase
      have hm := h r hr
      simp only [Bool.and_eq_true, beq_iff_eq, not_and] at hm
      exact hm ⟨⟨h1, h2⟩, h3⟩ ((availMatches_iff s e r).mpr hcase)
    · intro h r hr
      simp only [Bool.and_eq_true, beq_iff_eq, not_and]
      rintro ⟨⟨h1, h2⟩, h3⟩ hmatch
      exact h r hr h1 h2 h3 ((availMatches_iff s e r).mp hmatch)
  · simp only [find_eligible_substitutes, scenarioD_teacher,
      scenarioD_workload, scenarioD_slot, workloadOf, is_teacher_available,
      slotDuration, timeToMinutes, List.filter, List.find?, List.countP,
      List.countP.go, List.map]
    norm_num

/-- Witness for C3: the C8 input produces a candidate, and the filter
facts hold for it. -/
theorem C3_find_eligible_substitutes_witness :
    ∃ t ∈ [c8_teacher],
      c8_candidate.teacher_id = t.id ∧ t.status = "active" ∧
      is_teacher_available [] t.id "2025-02-05" c8_slot.start_time
        c8_slot.end_time = true ∧
      ((workloadOf [] "2025-02-03" t.id).map
        WorkloadRow.assigned_minutes).getD 0 + slotDuration c8_slot ≤
        1080 ∧
      c8_candidate.available_minutes =
        1080 - ((workloadOf [] "2025-02-03" t.id).map
          WorkloadRow.assigned_minutes).getD 0 :=
  C3_find_eligible_substitutes_filter.1 [c8_teacher] [] [] c8_slot
    "2025-02-05" "2025-02-03" 1080 5 c8_candidate
    (by rw [c8_output_eq]; exact List.mem_singleton_self _)

/-- The composite score never exceeds 1. -/
theorem matchScore_le_one (maxMinutes : Int) (slot : SlotRecord)
    (t : Teacher) (tw : Option WorkloadRow) (avail : Bool) :
    matchScore maxMinutes slot t tw avail ≤ 1 := by
  rw [matchScore.eq_def]
  rcases tw with _ | w <;> dsimp only <;> split_ifs <;> norm_num

/-- Counterexample for C8: for a ranked candidate whose teacher has no
workload row, the code's score is 0.8 while the claim's formula (reading
assignedMinutes as the coalesced value 0) gives 1.0. -/
theorem C8_counterexample :
    (find_eligible_substitutes [c8_teacher] [] [] c8_slot "2025-02-05"
      "2025-02-03").map TeacherCandidate.match_score = [(0.8 : ℚ)] ∧
    claimMatchScoreC8 1080 c8_slot c8_teacher
      (((workloadOf [] "2025-02-03" c8_teacher.id).map
        WorkloadRow.assigned_minutes).getD 0) true = 1 ∧
    (0.8 : ℚ) ≠ 1 := by
  refine ⟨by rw [c8_output_eq]; rfl, ?_, by norm_num⟩
  simp only [claimMatchScoreC8, c8_slot, c8_teacher, workloadOf,
    List.find?, Option.map, Option.getD]
  norm_num

/-- Amended claim C8: every ranked candidate's match_score is the sum of
a subject term (+0.5 or 0), a load term computed from the LEFT-JOINed
workload row (+0.3 when a row exists and assigned < 50% of cap, +0.2
when a row exists and assigned < 80%, else +0.1 — in particular +0.1
when no workload row exists), and the availability bonus +0.2 (every
ranked candidate passed the availability filter); the composite never
exceeds 1.0. -/
theorem C8_matchScore_decomposition :
    ∀ (teachers : List Teacher) (workloads : List WorkloadRow)
        (availability : List AvailabilityRecord) (slot : SlotRecord)
        (p_date weekStart : String) (maxMinutes : Int) (p_limit : Nat)
        (c : TeacherCandidate),
      c ∈ find_eligible_substitutes teachers workloads availability slot
          p_date weekStart maxMinutes p_limit →
      ∃ t ∈ teachers,
        c.match_score =
          (if slot.subject_code ∈ t.subjects then (0.5 : ℚ) else 0) +
          (match workloadOf workloads weekStart t.id with
           | some w =>
               if (w.assigned_minutes : ℚ) < (maxMinutes : ℚ) * 0.5 then
                 (0.3 : ℚ)
               else if (w.assigned_minutes : ℚ) <
                   (maxMinutes : ℚ) * 0.8 then (0.2 : ℚ)
               else (0.1 : ℚ)
           | none => (0.1 : ℚ)) + (0.2 : ℚ) ∧
        c.match_score ≤ 1 := by
  intro teachers workloads availability slot p_date weekStart maxMinutes
    p_limit c hc
  simp only [find_eligible_substitutes] at hc
  have hc' := List.take_subset _ _ hc
  rcases List.mem_map.mp hc' with ⟨r, hr, rfl⟩
  rw [List.mem_mergeSort] at hr
  rcases List.mem_map.mp hr with ⟨t, ht, rfl⟩
  rw [List.mem_filter] at ht
  obtain ⟨htmem, hcond⟩ := ht
  simp only [Bool.and_eq_true, beq_iff_eq, decide_eq_true_eq] at hcond
  refine ⟨t, htmem, ?_, matchScore_le_one ..⟩
  show matchScore maxMinutes slot t (workloadOf workloads weekStart t.id)
    (is_teacher_available availability t.id p_date slot.start_time
      slot.end_time) = _
  rw [matchScore.eq_def, hcond.1.2]
  simp only [if_true]

/-- Witness for the amended C8: the decomposition instantiated at the
concrete C8 input and its candidate. -/
theorem C8_matchScore_decomposition_witness :
    ∃ t ∈ [c8_teacher],
      c8_candidate.match_score =
        (if c8_slot.subject_code ∈ t.subjects then (0.5 : ℚ) else 0) +
        (match workloadOf [] "2025-02-03" t.id with
         | some w =>
             if (w.assigned_minutes : ℚ) < ((1080 : Int) : ℚ) * 0.5 then
               (0.3 : ℚ)
             else if (w.assigned_minutes : ℚ) <
                 ((1080 : Int) : ℚ) * 0.8 then (0.2 : ℚ)
             else (0.1 : ℚ)
         | none => (0.1 : ℚ)) + (0.2 : ℚ) ∧
      c8_candidate.match_score ≤ 1 :=
  C8_matchScore_decomposition [c8_teacher] [] [] c8_slot "2025-02-05"
    "2025-02-03" 1080 5 c8_candidate
    (by rw [c8_output_eq]; exact List.mem_singleton_self _)

/-- Claim C1 (code bug): the detect-conflicts handler's returned
conflict set is built solely from the AI response — with two locally
overlapping slots, an empty AI result yields an empty conflict set even
though the local check finds the overlap, and a non-empty AI result has
its severity copied verbatim into the output. -/
theorem C1_ai_result_replaces_local :
    (quickOverlapCheck [slotS1, slotS2]).length = 1 ∧
    detectHandlerConflicts "tt1" [slotS1, slotS2] [] = [] ∧
    (detectHandlerConflicts "tt1" [slotS1, slotS2]
      [{ aiType := "time_overlap", severity := "low", slot1_id := "s1"
         slot2_id := some "s2", suggestion := "move one class"
         reasoning := "overlap", confidence_score := 0 }]).map
      ConflictRow.severity = ["low"] := by
  refine ⟨by decide, by decide, by decide⟩

/-- Absence-workflow slot with subject weight 5. -/
def absSlot5 : AbsenceSlot :=
  { id := "as1", day_of_week := "Monday", start_time := ⟨9, 0⟩
    end_time := ⟨10, 0⟩, subject_code := "MATH", classroom_id := "c1"
    classroom_name := "Grade 1", subject_weight := some 5 }

/-- Claim C10: the absence workflow always invokes the priority
classifier with progress_percent = 50, so each affected slot's priority
is 'high' when its subject weight is at least 3 and 'medium' otherwise;
'critical' and 'normal' never occur and the response summary's critical
count is always 0. -/
theorem C10_absence_priority_fixed_progress :
    (∀ (tid : String) (slot : AbsenceSlot),
      calculatePriority (mkAbsenceContext tid slot) =
        if 3 ≤ effSubjectWeight slot.subject_weight then "high"
        else "medium") ∧
    (∀ (tid : String) (slot : AbsenceSlot) (w : Int),
      slot.subject_weight = some w →
      calculatePriority (mkAbsenceContext tid slot) =
        if 3 ≤ w then "high" else "medium") ∧
    (∀ (tid : String) (slot : AbsenceSlot),
      calculatePriority (mkAbsenceContext tid slot) ≠ "critical" ∧
      calculatePriority (mkAbsenceContext tid slot) ≠ "normal") ∧
    (∀ (tid : String) (slots : List AbsenceSlot)
        (hasTop : AbsenceSlot → Bool),
      absenceCriticalCount tid slots hasTop = 0) := by
  have hmain : ∀ (tid : String) (slot : AbsenceSlot),
      calculatePriority (mkAbsenceContext tid slot) =
        if 3 ≤ effSubjectWeight slot.subject_weight then "high"
        else "medium" := by
    intro tid slot
    rw [calculatePriority]
    rw [if_neg (by simp [mkAbsenceContext])]
    by_cases h : 3 ≤ effSubjectWeight slot.subject_weight
    · rw [if_pos ⟨by simp [mkAbsenceContext], by
        simpa [mkAbsenceContext] using h⟩, if_pos h]
    · rw [if_neg (by
        simp only [mkAbsenceContext, not_and]
        intro
        simpa using h), if_pos (by simp [mkAbsenceContext]), if_neg h]
  refine ⟨hmain, ?_, ?_, ?_⟩
  · intro tid slot w hw
    rw [hmain tid slot, hw]
    by_cases h0 : w = 0
    · subst h0
      rw [if_neg (by simp [effSubjectWeight]), if_neg (by omega)]
    · have : effSubjectWeight (some w) = w := by
        simp [effSubjectWeight, h0]
      rw [this]
  · intro tid slot
    rw [hmain tid slot]
    split_ifs <;> exact ⟨by decide, by decide⟩
  · intro tid slots hasTop
    rw [absenceCriticalCount, List.count_eq_zero]
    intro hmem
    rcases List.mem_map.mp hmem with ⟨s, _, hs⟩
    rw [hmain tid s] at hs
    revert hs
    split_ifs <;> decide

/-- Witness for C10: a slot with subject weight 5 is classified 'high'
(and never 'critical'). -/
theorem C10_absence_priority_witness :
    calculatePriority (mkAbsenceContext "t1" absSlot5) =
      if (3 : Int) ≤ 5 then "high" else "medium" :=
  C10_absence_priority_fixed_progress.2.1 "t1" absSlot5 5 rfl

end Smarty
